import Mathlib

/-!
Shallow embedding of `src/index.ts` (javeoff/ws-reconnect), the
`ReconnectingWebSocket` class: a reconnecting WebSocket client wrapper with
an outbound message queue, an optional sent-message log with replay, a
retry-capped reconnect scheduler, and an event dispatcher.

The client's mutable fields (`ws`/readyState, `retryCount`, `messageQueue`,
`sentMessages`) together with the immutable configuration become a Lean
record `Client`.  The underlying transport is abstracted to the one bit the
code reads (`this.ws?.readyState === WebSocket.OPEN`), stored as `wsOpen`,
plus two observation traces: `transported` records every payload handed to
`ws.send`, `emitted` records every event emitted to the dispatcher, and
`connects` counts calls to `connect()` (i.e. `new WebSocket(url)`).
The per-call error reported by the transport in the `ws.send` callback is
supplied by an oracle `errs : Payload -> Bool`.
-/

namespace WsReconnect

/-- Message payloads are opaque to the core; we fix them to strings. -/
abbrev Payload := String

/-- Events emitted to the event dispatcher (the argument to `this.emit`). -/
inductive Ev where
  | opened
  | message (data : Payload)
  | closed
  | errored
deriving DecidableEq

/-- The state of one `ReconnectingWebSocket` instance.

Mutable fields of the class: `wsOpen` (whether `this.ws` exists and its
`readyState` is `WebSocket.OPEN`), `retryCount`, `messageQueue`,
`sentMessages`.  Immutable configuration: `url`, `reconnectInterval`,
`maxRetries` (`none` = option absent), `resendOnReconnect`,
`repeatAllMessages`.  Observation traces (not class fields):
`transported`, `connects`, `emitted`. -/
@[ext]
structure Client where
  url : String
  wsOpen : Bool
  retryCount : Nat
  messageQueue : List Payload
  sentMessages : List Payload
  reconnectInterval : Nat
  maxRetries : Option Nat
  resendOnReconnect : Bool
  repeatAllMessages : Bool
  transported : List Payload
  connects : Nat
  emitted : List Ev
deriving DecidableEq

/-- The `ReconnectingWebSocketOptions` object passed to the constructor;
`none` models an absent (`undefined`) property. -/
structure Options where
  reconnectInterval : Option Nat
  maxRetries : Option Nat
  resendOnReconnect : Option Bool
  repeatAllMessages : Option Bool

/-- JavaScript `v || d` for a possibly-absent number `v`:
`undefined` and `0` are falsy and yield the default. -/
def jsOr (v : Option Nat) (d : Nat) : Nat :=
  match v with
  | none => d
  | some n => if n = 0 then d else n

/-- JavaScript `b || false` for a possibly-absent boolean. -/
def jsOrFalse (b : Option Bool) : Bool :=
  b.getD false

/-- `private connect()`: `this.ws = new WebSocket(this.url)` replaces the
transport handle with a fresh one (readyState CONNECTING, not OPEN) and
wires the four signal handlers.  We count the call in `connects`. -/
def connect (c : Client) : Client :=
  { c with wsOpen := false, connects := c.connects + 1 }

/-- The constructor: store the configuration (applying the `||` defaults of
lines 26-29) and immediately call `this.connect()`. -/
def mkClient (url : String) (opts : Options) : Client :=
  connect
    { url := url
      wsOpen := false
      retryCount := 0
      messageQueue := []
      sentMessages := []
      reconnectInterval := jsOr opts.reconnectInterval 5000
      maxRetries := opts.maxRetries
      resendOnReconnect := jsOrFalse opts.resendOnReconnect
      repeatAllMessages := jsOrFalse opts.repeatAllMessages
      transported := []
      connects := 0
      emitted := [] }

/-- `public send(data, queueOnFailure = true)` (lines 111-124).
If the transport is open, hand the payload to `ws.send`; the transport
reports failure via `sendErr`, and on success (`sendErr = false`) with
`repeatAllMessages` enabled the payload is pushed onto `sentMessages`.
Otherwise, if `queueOnFailure`, push the payload onto `messageQueue`;
otherwise do nothing. -/
def send (c : Client) (data : Payload) (queueOnFailure : Bool) (sendErr : Bool) : Client :=
  if c.wsOpen then
    { c with
      transported := c.transported ++ [data]
      sentMessages :=
        if !sendErr && c.repeatAllMessages then c.sentMessages ++ [data]
        else c.sentMessages }
  else if queueOnFailure then
    { c with messageQueue := c.messageQueue ++ [data] }
  else c

/-- The `while (this.messageQueue.length > 0)` loop of
`resendQueuedMessages` (lines 82-85): shift the head off the queue and
`send(message, false)`.  The list argument is the current value of
`this.messageQueue`; each iteration removes the head (`shift`) before the
send, and `send` with `queueOnFailure = false` never pushes back onto the
queue, so the loop consumes exactly the initial queue. -/
def flushLoop (errs : Payload → Bool) : Client → List Payload → Client
  | c, [] => c
  | c, m :: rest =>
      flushLoop errs (send { c with messageQueue := rest } m false (errs m)) rest

/-- The replay loop of `resendQueuedMessages` (lines 88-93): iterate a
snapshot list (`[...this.sentMessages]`) and `send(message, false)` each
entry. -/
def replayLoop (errs : Payload → Bool) (c : Client) (snapshot : List Payload) : Client :=
  snapshot.foldl (fun a m => send a m false (errs m)) c

/-- `private resendQueuedMessages()` (lines 80-94): first flush the
outbound queue, then, if `repeatAllMessages`, iterate a copy of
`sentMessages` taken after the flush and resend each entry. -/
def resendQueuedMessages (c : Client) (errs : Payload → Bool) : Client :=
  let c1 := flushLoop errs c c.messageQueue
  if c1.repeatAllMessages then replayLoop errs c1 c1.sentMessages else c1

/-- The guard of `reconnect` (line 70):
`this.maxRetries ? this.retryCount < this.maxRetries : true`.
An absent `maxRetries` and the falsy value `0` both select the `true`
branch. -/
def reconnectAllowed (maxRetries : Option Nat) (retryCount : Nat) : Bool :=
  match maxRetries with
  | none => true
  | some n => if n = 0 then true else decide (retryCount < n)

/-- `private async reconnect()` (lines 69-78): if allowed, wait
`reconnectInterval`, increment `retryCount`, and call `connect()`;
otherwise log and stop (no timer is scheduled, state unchanged). -/
def reconnect (c : Client) : Client :=
  if reconnectAllowed c.maxRetries c.retryCount then
    connect { c with retryCount := c.retryCount + 1 }
  else c

/-- The transport's `open` handler (lines 37-45).  The signal fires when
the current transport reaches the OPEN ready-state; the handler resets
`retryCount` to 0, emits `open`, and, if `resendOnReconnect`, runs
`resendQueuedMessages`. -/
def onOpen (c : Client) (errs : Payload → Bool) : Client :=
  let c1 := { c with wsOpen := true, retryCount := 0 }
  let c2 := { c1 with emitted := c1.emitted ++ [Ev.opened] }
  if c2.resendOnReconnect then resendQueuedMessages c2 errs else c2

/-- The transport's `message` handler (lines 47-49): emit the payload. -/
def onMessage (c : Client) (data : Payload) : Client :=
  { c with emitted := c.emitted ++ [Ev.message data] }

/-- The transport's `close` handler (lines 51-55): the transport is no
longer open; emit `close`, then call `reconnect()`. -/
def onClose (c : Client) : Client :=
  reconnect { c with wsOpen := false, emitted := c.emitted ++ [Ev.closed] }

/-- The transport's `error` handler (lines 57-61): emit `error`, then
`this.ws?.close()` (the transport leaves the OPEN state; its own `close`
signal will follow and is modelled separately by `onClose`). -/
def onError (c : Client) : Client :=
  { c with emitted := c.emitted ++ [Ev.errored], wsOpen := false }

/-- `public close(code?, reason?)` (lines 126-128): `this.ws?.close(...)`;
the transport enters CLOSING, so it is no longer in the OPEN state. -/
def closeConn (c : Client) : Client :=
  { c with wsOpen := false }

/-- `public terminate()` (lines 130-134): destroy the transport and clear
both `messageQueue` and `sentMessages`. -/
def terminate (c : Client) : Client :=
  { c with wsOpen := false, messageQueue := [], sentMessages := [] }

/-- A caller performing a sequence of `send(p)` calls with the default
`queueOnFailure = true`, each hand-off succeeding. -/
def sendAll (c : Client) (ps : List Payload) : Client :=
  ps.foldl (fun a p => send a p true false) c

/-- `k` consecutive connection losses: each one fires the transport's
`close` handler (which emits `close` and runs `reconnect`). -/
def lossesFrom (c : Client) : Nat → Client
  | 0 => c
  | Nat.succ k => lossesFrom (onClose c) k

/-- A transport error oracle under which every hand-off succeeds. -/
def noErr : Payload → Bool := fun _ => false

/-- A concrete client with an open transport and both resend features on,
used to instantiate theorems on concrete inputs. -/
def openClient : Client :=
  { url := "ws://localhost:8080"
    wsOpen := true
    retryCount := 0
    messageQueue := []
    sentMessages := []
    reconnectInterval := 5000
    maxRetries := none
    resendOnReconnect := true
    repeatAllMessages := true
    transported := []
    connects := 1
    emitted := [Ev.opened] }

/-- A concrete client with `maxRetries = 2` whose transport just dropped. -/
def cappedClient : Client :=
  { url := "ws://localhost:8080"
    wsOpen := false
    retryCount := 0
    messageQueue := []
    sentMessages := []
    reconnectInterval := 1000
    maxRetries := some 2
    resendOnReconnect := false
    repeatAllMessages := false
    transported := []
    connects := 1
    emitted := [] }

/-- A concrete client constructed with the falsy cap `maxRetries = 0`. -/
def zeroCapClient : Client :=
  { cappedClient with maxRetries := some 0 }

/-- A concrete client with a non-open transport and some queued state. -/
def closedClient : Client :=
  { url := "ws://localhost:8080"
    wsOpen := false
    retryCount := 1
    messageQueue := ["q1"]
    sentMessages := ["s1"]
    reconnectInterval := 5000
    maxRetries := none
    resendOnReconnect := true
    repeatAllMessages := true
    transported := ["s1"]
    connects := 2
    emitted := [Ev.opened, Ev.closed] }

/-- `openClient` after two successfully logged sends, used to instantiate
the replay-snapshot theorem on a concrete input. -/
def snapClient : Client :=
  { openClient with sentMessages := ["x", "y"] }

/-- A concrete options object. -/
def demoOpts : Options :=
  { reconnectInterval := none
    maxRetries := some 10
    resendOnReconnect := some true
    repeatAllMessages := some false }

/-! ### Characterization lemmas -/

/-- `send` with an open transport: the payload is handed to the transport,
and on success with `repeatAllMessages` it is logged. -/
theorem send_open (c : Client) (p : Payload) (q e : Bool) (h : c.wsOpen = true) :
    send c p q e =
      { c with
        transported := c.transported ++ [p]
        sentMessages :=
          if !e && c.repeatAllMessages then c.sentMessages ++ [p]
          else c.sentMessages } := by
  simp [send, h]

/-- `send` with a non-open transport and `queueOnFailure = false` is the
identity. -/
theorem send_closed_noqueue (c : Client) (p : Payload) (e : Bool) (h : c.wsOpen = false) :
    send c p false e = c := by
  simp [send, h]

/-- `send` with `queueOnFailure = false` never touches the queue. -/
theorem send_noqueue_messageQueue (c : Client) (p : Payload) (e : Bool) :
    (send c p false e).messageQueue = c.messageQueue := by
  unfold send
  split
  · rfl
  · rfl

/-- Fields of the client state that `send` never changes. -/
theorem send_preserved (c : Client) (p : Payload) (q e : Bool) :
    (send c p q e).wsOpen = c.wsOpen ∧
    (send c p q e).retryCount = c.retryCount ∧
    (send c p q e).repeatAllMessages = c.repeatAllMessages ∧
    (send c p q e).resendOnReconnect = c.resendOnReconnect ∧
    (send c p q e).maxRetries = c.maxRetries ∧
    (send c p q e).connects = c.connects ∧
    (send c p q e).emitted = c.emitted := by
  unfold send
  split
  · exact ⟨rfl, rfl, rfl, rfl, rfl, rfl, rfl⟩
  · split
    · exact ⟨rfl, rfl, rfl, rfl, rfl, rfl, rfl⟩
    · exact ⟨rfl, rfl, rfl, rfl, rfl, rfl, rfl⟩

/-- Full characterization of the queue-flush loop, assuming the list
argument is the client's current queue (the loop invariant): the queue is
drained; with an open transport every entry is handed off in order, and the
successful ones are logged when `repeatAllMessages` is on; with a non-open
transport the entries are silently dropped (never re-enqueued).  All other
fields are unchanged. -/
theorem flushLoop_spec (errs : Payload → Bool) :
    ∀ (q : List Payload) (c : Client), c.messageQueue = q →
      (flushLoop errs c q).messageQueue = [] ∧
      (flushLoop errs c q).transported = c.transported ++ (if c.wsOpen then q else []) ∧
      (flushLoop errs c q).sentMessages = c.sentMessages ++
        (if c.wsOpen && c.repeatAllMessages then q.filter (fun m => ! errs m) else []) ∧
      (flushLoop errs c q).wsOpen = c.wsOpen ∧
      (flushLoop errs c q).retryCount = c.retryCount ∧
      (flushLoop errs c q).repeatAllMessages = c.repeatAllMessages ∧
      (flushLoop errs c q).resendOnReconnect = c.resendOnReconnect ∧
      (flushLoop errs c q).maxRetries = c.maxRetries ∧
      (flushLoop errs c q).connects = c.connects ∧
      (flushLoop errs c q).emitted = c.emitted := by
  intro q
  induction q with
  | nil =>
      intro c hc
      simp [flushLoop, hc]
  | cons m rest ih =>
      intro c hc
      rw [flushLoop]
      obtain ⟨h1, h2, h3, h4, h5, h6, h7, h8, h9, h10⟩ :=
        ih _ (send_noqueue_messageQueue { c with messageQueue := rest } m (errs m))
      by_cases hw : c.wsOpen <;>
        by_cases hr : c.repeatAllMessages <;>
          by_cases he : errs m = true <;>
            simp_all [send, List.filter_cons]

/-- Full characterization of the replay loop: with an open transport every
snapshot entry is handed off in order (and the successful ones re-logged
when `repeatAllMessages` is on); otherwise entries are dropped.  The queue
is never touched (`queueOnFailure = false`), nor is any other field. -/
theorem replayLoop_spec (errs : Payload → Bool) :
    ∀ (snapshot : List Payload) (c : Client),
      (replayLoop errs c snapshot).messageQueue = c.messageQueue ∧
      (replayLoop errs c snapshot).transported =
        c.transported ++ (if c.wsOpen then snapshot else []) ∧
      (replayLoop errs c snapshot).sentMessages = c.sentMessages ++
        (if c.wsOpen && c.repeatAllMessages then snapshot.filter (fun m => ! errs m)
         else []) ∧
      (replayLoop errs c snapshot).wsOpen = c.wsOpen ∧
      (replayLoop errs c snapshot).retryCount = c.retryCount ∧
      (replayLoop errs c snapshot).repeatAllMessages = c.repeatAllMessages ∧
      (replayLoop errs c snapshot).resendOnReconnect = c.resendOnReconnect ∧
      (replayLoop errs c snapshot).maxRetries = c.maxRetries ∧
      (replayLoop errs c snapshot).connects = c.connects ∧
      (replayLoop errs c snapshot).emitted = c.emitted := by
  intro snapshot
  induction snapshot with
  | nil =>
      intro c
      simp [replayLoop]
  | cons m rest ih =>
      intro c
      have hfold : replayLoop errs c (m :: rest) =
          replayLoop errs (send c m false (errs m)) rest := by
        simp [replayLoop]
      rw [hfold]
      obtain ⟨h1, h2, h3, h4, h5, h6, h7, h8, h9, h10⟩ := ih (send c m false (errs m))
      by_cases hw : c.wsOpen <;>
        by_cases hr : c.repeatAllMessages <;>
          by_cases he : errs m = true <;>
            simp_all [send, List.filter_cons]

/-- Full characterization of `resendQueuedMessages`.  Writing
`S1 = sentMessages after the flush`, the pass drains the queue, hands off
(queue then snapshot `S1`) when the transport is open, and leaves the log
at `S1` plus the re-logged successful replays. -/
theorem resend_spec (errs : Payload → Bool) (c : Client) :
    (resendQueuedMessages c errs).messageQueue = [] ∧
    (resendQueuedMessages c errs).transported =
      c.transported ++ (if c.wsOpen then c.messageQueue else []) ++
        (if c.wsOpen && c.repeatAllMessages then
          c.sentMessages ++ c.messageQueue.filter (fun m => ! errs m)
         else []) ∧
    (resendQueuedMessages c errs).sentMessages =
      (c.sentMessages ++
        (if c.wsOpen && c.repeatAllMessages then c.messageQueue.filter (fun m => ! errs m)
         else [])) ++
      (if c.wsOpen && c.repeatAllMessages then
        (c.sentMessages ++ c.messageQueue.filter (fun m => ! errs m)).filter
          (fun m => ! errs m)
       else []) ∧
    (resendQueuedMessages c errs).wsOpen = c.wsOpen ∧
    (resendQueuedMessages c errs).retryCount = c.retryCount ∧
    (resendQueuedMessages c errs).repeatAllMessages = c.repeatAllMessages ∧
    (resendQueuedMessages c errs).resendOnReconnect = c.resendOnReconnect ∧
    (resendQueuedMessages c errs).maxRetries = c.maxRetries ∧
    (resendQueuedMessages c errs).connects = c.connects ∧
    (resendQueuedMessages c errs).emitted = c.emitted := by
  obtain ⟨f1, f2, f3, f4, f5, f6, f7, f8, f9, f10⟩ :=
    flushLoop_spec errs c.messageQueue c rfl
  unfold resendQueuedMessages
  by_cases hr : c.repeatAllMessages
  · obtain ⟨r1, r2, r3, r4, r5, r6, r7, r8, r9, r10⟩ :=
      replayLoop_spec errs (flushLoop errs c c.messageQueue).sentMessages
        (flushLoop errs c c.messageQueue)
    by_cases hw : c.wsOpen <;> simp_all
  · by_cases hw : c.wsOpen <;> simp_all

/-- `reconnect` either schedules an attempt (increment the counter, then a
fresh transport via `connect`) or, at the cap, changes nothing. -/
theorem reconnect_spec (c : Client) :
    reconnect c =
      if reconnectAllowed c.maxRetries c.retryCount then
        { c with retryCount := c.retryCount + 1, wsOpen := false,
                 connects := c.connects + 1 }
      else c := by
  unfold reconnect connect
  split
  · rfl
  · rfl

/-- Evolution of `retryCount` and the number of `connect()` calls across
`k` consecutive connection losses under a positive retry cap `N`: the
counter climbs to at most `N`, and exactly `min (r + k) N - r` further
connection attempts are made. -/
theorem lossesFrom_capped (N : Nat) (hN : 0 < N) :
    ∀ (k : Nat) (c : Client), c.maxRetries = some N → c.retryCount ≤ N →
      (lossesFrom c k).retryCount = min (c.retryCount + k) N ∧
      (lossesFrom c k).connects =
        c.connects + (min (c.retryCount + k) N - c.retryCount) ∧
      (lossesFrom c k).maxRetries = some N := by
  intro k
  induction k with
  | zero =>
      intro c hm hr
      refine ⟨?_, ?_, hm⟩
      · simp only [lossesFrom]
        omega
      · simp only [lossesFrom]
        omega
  | succ k ih =>
      intro c hm hr
      rw [show lossesFrom c (k + 1) = lossesFrom (onClose c) k from rfl]
      have hco : onClose c =
          reconnect { c with wsOpen := false, emitted := c.emitted ++ [Ev.closed] } := rfl
      rw [hco, reconnect_spec]
      by_cases hlt : c.retryCount < N
      · have hall : reconnectAllowed c.maxRetries c.retryCount = true := by
          rw [hm]
          unfold reconnectAllowed
          simp [Nat.pos_iff_ne_zero.mp hN, hlt]
        simp only [hall, if_true]
        obtain ⟨i1, i2, i3⟩ := ih
          { c with wsOpen := false, emitted := c.emitted ++ [Ev.closed],
                   retryCount := c.retryCount + 1, connects := c.connects + 1 }
          hm (by dsimp only; omega)
        refine ⟨?_, ?_, i3⟩
        · dsimp only at i1 ⊢; rw [i1]; omega
        · dsimp only at i1 i2 ⊢; rw [i2]; omega
      · have hreq : c.retryCount = N := by omega
        have hall : reconnectAllowed c.maxRetries c.retryCount = false := by
          rw [hm]
          unfold reconnectAllowed
          simp [Nat.pos_iff_ne_zero.mp hN, hlt]
        simp only [hall, Bool.false_eq_true, if_false]
        obtain ⟨i1, i2, i3⟩ := ih
          { c with wsOpen := false, emitted := c.emitted ++ [Ev.closed] } hm hr
        refine ⟨?_, ?_, i3⟩
        · dsimp only at i1 ⊢; rw [i1]; omega
        · dsimp only at i1 i2 ⊢; rw [i2]; omega

/-- With `maxRetries = 0` (falsy), every connection loss schedules another
attempt: `k` losses make `k` further connection attempts, with no cap. -/
theorem lossesFrom_unlimited :
    ∀ (k : Nat) (c : Client), c.maxRetries = some 0 →
      (lossesFrom c k).connects = c.connects + k ∧
      (lossesFrom c k).retryCount = c.retryCount + k ∧
      (lossesFrom c k).maxRetries = some 0 := by
  intro k
  induction k with
  | zero =>
      intro c hm
      exact ⟨rfl, rfl, hm⟩
  | succ k ih =>
      intro c hm
      rw [show lossesFrom c (k + 1) = lossesFrom (onClose c) k from rfl]
      have hco : onClose c =
          reconnect { c with wsOpen := false, emitted := c.emitted ++ [Ev.closed] } := rfl
      rw [hco, reconnect_spec]
      have hall : reconnectAllowed c.maxRetries c.retryCount = true := by
        rw [hm]; rfl
      simp only [hall, if_true]
      obtain ⟨i1, i2, i3⟩ := ih
        { c with wsOpen := false, emitted := c.emitted ++ [Ev.closed],
                 retryCount := c.retryCount + 1, connects := c.connects + 1 } hm
      refine ⟨?_, ?_, i3⟩
      · dsimp only at i1 ⊢; rw [i1]; omega
      · dsimp only at i2 ⊢; rw [i2]; omega

/-- A sequence of caller `send`s against an open transport, all succeeding:
each payload is handed off in order, and logged when `repeatAllMessages`. -/
theorem sendAll_spec :
    ∀ (ps : List Payload) (c : Client), c.wsOpen = true →
      (sendAll c ps).transported = c.transported ++ ps ∧
      (sendAll c ps).sentMessages =
        c.sentMessages ++ (if c.repeatAllMessages then ps else []) ∧
      (sendAll c ps).messageQueue = c.messageQueue ∧
      (sendAll c ps).wsOpen = true ∧
      (sendAll c ps).retryCount = c.retryCount ∧
      (sendAll c ps).repeatAllMessages = c.repeatAllMessages ∧
      (sendAll c ps).resendOnReconnect = c.resendOnReconnect ∧
      (sendAll c ps).maxRetries = c.maxRetries ∧
      (sendAll c ps).connects = c.connects ∧
      (sendAll c ps).emitted = c.emitted := by
  intro ps
  induction ps with
  | nil =>
      intro c hw
      simp [sendAll, hw]
  | cons p rest ih =>
      intro c hw
      have hfold : sendAll c (p :: rest) = sendAll (send c p true false) rest := by
        simp [sendAll]
      rw [hfold]
      obtain ⟨h1, h2, h3, h4, h5, h6, h7, h8, h9, h10⟩ :=
        ih (send c p true false) (by rw [(send_preserved c p true false).1, hw])
      by_cases hr : c.repeatAllMessages <;> simp_all [send, hw]

/-- The `close` handler leaves the queue, the log and the hand-off trace
untouched (whether or not a reconnect is scheduled); afterwards the
transport is not open. -/
theorem onClose_fields (c : Client) :
    (onClose c).wsOpen = false ∧
    (onClose c).messageQueue = c.messageQueue ∧
    (onClose c).sentMessages = c.sentMessages ∧
    (onClose c).transported = c.transported ∧
    (onClose c).repeatAllMessages = c.repeatAllMessages ∧
    (onClose c).resendOnReconnect = c.resendOnReconnect ∧
    (onClose c).maxRetries = c.maxRetries := by
  unfold onClose
  rw [reconnect_spec]
  split
  · exact ⟨rfl, rfl, rfl, rfl, rfl, rfl, rfl⟩
  · exact ⟨rfl, rfl, rfl, rfl, rfl, rfl, rfl⟩

/-- With `resendOnReconnect` on, the `open` handler is: reset the counter,
emit `open`, then run `resendQueuedMessages`. -/
theorem onOpen_resend (c : Client) (errs : Payload → Bool)
    (h : c.resendOnReconnect = true) :
    onOpen c errs =
      resendQueuedMessages
        { c with wsOpen := true, retryCount := 0,
                 emitted := c.emitted ++ [Ev.opened] } errs := by
  unfold onOpen
  simp [h]

/-- With `resendOnReconnect` off, the `open` handler only resets the
counter and emits `open`. -/
theorem onOpen_noresend (c : Client) (errs : Payload → Bool)
    (h : c.resendOnReconnect = false) :
    onOpen c errs =
      { c with wsOpen := true, retryCount := 0,
               emitted := c.emitted ++ [Ev.opened] } := by
  unfold onOpen
  simp [h]

/-- A resend pass on an open client with an empty queue, log `L` and
`repeatAllMessages` on: it hands off exactly `L` and re-logs the
successful hand-offs after `L`. -/
theorem resend_open_empty_queue (c : Client) (errs : Payload → Bool)
    (L : List Payload) (hw : c.wsOpen = true) (hq : c.messageQueue = [])
    (hs : c.sentMessages = L) (hrep : c.repeatAllMessages = true) :
    (resendQueuedMessages c errs).transported = c.transported ++ L ∧
    (resendQueuedMessages c errs).sentMessages =
      L ++ L.filter (fun m => ! errs m) ∧
    (resendQueuedMessages c errs).messageQueue = [] := by
  obtain ⟨r1, r2, r3, -⟩ := resend_spec errs c
  refine ⟨?_, ?_, r1⟩
  · rw [r2]
    simp [hw, hq, hs, hrep]
  · rw [r3]
    simp [hw, hq, hs, hrep]

/-- A resend pass with nothing stored (empty queue and log) hands off
nothing and leaves both empty, in any transport state. -/
theorem resend_empty_state (c : Client) (errs : Payload → Bool)
    (hq : c.messageQueue = []) (hs : c.sentMessages = []) :
    (resendQueuedMessages c errs).transported = c.transported ∧
    (resendQueuedMessages c errs).sentMessages = [] ∧
    (resendQueuedMessages c errs).messageQueue = [] := by
  obtain ⟨r1, r2, r3, -⟩ := resend_spec errs c
  refine ⟨?_, ?_, r1⟩
  · rw [r2, hq, hs]
    simp
  · rw [r3, hq, hs]
    simp

/-- Every payload handed off during a resend pass was already in the
hand-off trace, the outbound queue or the sent log beforehand. -/
theorem resend_transported_mem (c : Client) (errs : Payload → Bool) :
    ∀ m, m ∈ (resendQueuedMessages c errs).transported →
      m ∈ c.transported ∨ m ∈ c.messageQueue ∨ m ∈ c.sentMessages := by
  obtain ⟨-, h2, -⟩ := resend_spec errs c
  intro m hm
  rw [h2] at hm
  by_cases hw : c.wsOpen = true <;> by_cases hr : c.repeatAllMessages = true <;>
    simp [hw, hr, List.mem_filter] at hm <;> tauto

/-! ### Claim theorems -/

/-- C1: with a configured (hence positive, since the falsy value `0` is
treated as unconfigured) maximum retry count `N`, a reconnection attempt is
scheduled exactly when the retry counter is strictly below `N` (the compare
happens before the increment); starting from a fresh counter, `k`
connection losses cause exactly `min k N` connection attempts, the counter
reaches `N` after the `N`-th failed attempt, and a further loss schedules
no new connection attempt. -/
theorem c1_retry_cap_exactly_n_attempts (N : Nat) (c : Client) (k : Nat)
    (hN : 0 < N) (hm : c.maxRetries = some N) (h0 : c.retryCount = 0) :
    (∀ r : Nat, reconnectAllowed (some N) r = true ↔ r < N) ∧
    (lossesFrom c k).connects = c.connects + min k N ∧
    (lossesFrom c N).retryCount = N ∧
    (onClose (lossesFrom c N)).connects = (lossesFrom c N).connects := by
  have hNe : N ≠ 0 := Nat.pos_iff_ne_zero.mp hN
  refine ⟨?_, ?_, ?_, ?_⟩
  · intro r
    unfold reconnectAllowed
    simp [hNe]
  · obtain ⟨a1, a2, a3⟩ := lossesFrom_capped N hN k c hm (by omega)
    rw [a2, h0]
    omega
  · obtain ⟨a1, a2, a3⟩ := lossesFrom_capped N hN N c hm (by omega)
    rw [a1, h0]
    omega
  · obtain ⟨a1, a2, a3⟩ := lossesFrom_capped N hN N c hm (by omega)
    have hx : reconnectAllowed (lossesFrom c N).maxRetries
        (lossesFrom c N).retryCount = false := by
      rw [a3, a1, h0]
      unfold reconnectAllowed
      simp [hNe]
    unfold onClose
    rw [reconnect_spec]
    simp [hx]

/-- C1 witness: `maxRetries = 2`, three losses yield exactly two attempts,
and the third loss schedules nothing. -/
theorem c1_retry_cap_exactly_n_attempts_witness :
    0 < 2 ∧ cappedClient.maxRetries = some 2 ∧ cappedClient.retryCount = 0 ∧
    ((∀ r : Nat, reconnectAllowed (some 2) r = true ↔ r < 2) ∧
     (lossesFrom cappedClient 3).connects = cappedClient.connects + min 3 2 ∧
     (lossesFrom cappedClient 2).retryCount = 2 ∧
     (onClose (lossesFrom cappedClient 2)).connects =
       (lossesFrom cappedClient 2).connects) :=
  ⟨by decide, by decide, by decide,
   c1_retry_cap_exactly_n_attempts 2 cappedClient 3 (by decide) (by decide) (by decide)⟩

/-- C3: a `send` while the transport is not open appends the payload to the
queue's tail when `queueOnFailure` is true, and with `queueOnFailure`
false leaves the state unchanged, so a payload not already stored is never
handed off by a later resend pass. -/
theorem c3_send_not_open_queues_or_drops (c : Client) (p : Payload) (e : Bool)
    (errs : Payload → Bool) (hw : c.wsOpen = false) :
    (send c p true e).messageQueue = c.messageQueue ++ [p] ∧
    send c p false e = c ∧
    (p ∉ c.messageQueue → p ∉ c.sentMessages → p ∉ c.transported →
      p ∉ (resendQueuedMessages (send c p false e) errs).transported) := by
  refine ⟨?_, send_closed_noqueue c p e hw, ?_⟩
  · simp [send, hw]
  · intro h1 h2 h3 hmem
    rw [send_closed_noqueue c p e hw] at hmem
    rcases resend_transported_mem c errs p hmem with h | h | h
    · exact h3 h
    · exact h1 h
    · exact h2 h

/-- C3 witness: a payload dropped while disconnected is absent from the
subsequent resend pass's hand-offs. -/
theorem c3_send_not_open_queues_or_drops_witness :
    closedClient.wsOpen = false ∧
    "new" ∉ closedClient.messageQueue ∧
    "new" ∉ closedClient.sentMessages ∧
    "new" ∉ closedClient.transported ∧
    (send closedClient "new" true false).messageQueue =
      closedClient.messageQueue ++ ["new"] ∧
    "new" ∉ (resendQueuedMessages (send closedClient "new" false false) noErr).transported :=
  ⟨by decide, by decide, by decide, by decide,
   (c3_send_not_open_queues_or_drops closedClient "new" false noErr (by decide)).1,
   (c3_send_not_open_queues_or_drops closedClient "new" false noErr (by decide)).2.2
     (by decide) (by decide) (by decide)⟩

/-- C4: the flush pass always drains the queue completely — even when the
individual resends fail or the transport raced back to a non-open state
nothing is re-enqueued — and with an open transport the entries are handed
off in exactly their enqueue order. -/
theorem c4_flush_order_and_no_requeue (c : Client) (errs : Payload → Bool) :
    (flushLoop errs c c.messageQueue).messageQueue = [] ∧
    (flushLoop errs c c.messageQueue).transported =
      c.transported ++ (if c.wsOpen then c.messageQueue else []) := by
  obtain ⟨h1, h2, -⟩ := flushLoop_spec errs c.messageQueue c rfl
  exact ⟨h1, h2⟩

/-- C8: when the transport is open but reports a send failure, the payload
lands in neither the queue nor the sent log (the hand-off itself still
occurred); only a successful hand-off is logged, and only when
`repeatAllMessages` is enabled. -/
theorem c8_send_failure_not_stored (c : Client) (p : Payload) (q : Bool)
    (hw : c.wsOpen = true) :
    (send c p q true).messageQueue = c.messageQueue ∧
    (send c p q true).sentMessages = c.sentMessages ∧
    (send c p q true).transported = c.transported ++ [p] ∧
    (send c p q false).sentMessages =
      (if c.repeatAllMessages then c.sentMessages ++ [p] else c.sentMessages) ∧
    (send c p q false).messageQueue = c.messageQueue := by
  simp [send, hw]

/-- C8 witness: a failed hand-off on `openClient` stores nothing; a
successful one is logged. -/
theorem c8_send_failure_not_stored_witness :
    openClient.wsOpen = true ∧
    ((send openClient "m" true true).messageQueue = openClient.messageQueue ∧
     (send openClient "m" true true).sentMessages = openClient.sentMessages ∧
     (send openClient "m" true true).transported = openClient.transported ++ ["m"] ∧
     (send openClient "m" true false).sentMessages =
       (if openClient.repeatAllMessages then openClient.sentMessages ++ ["m"]
        else openClient.sentMessages) ∧
     (send openClient "m" true false).messageQueue = openClient.messageQueue) :=
  ⟨by decide, c8_send_failure_not_stored openClient "m" true (by decide)⟩

/-- C9: `maxRetries = 0` is falsy in the reconnect guard, so the cap is
treated as unconfigured: every loss schedules another attempt, without
limit, instead of stopping immediately. -/
theorem c9_zero_cap_means_unlimited (c : Client) (hm : c.maxRetries = some 0) :
    (∀ r : Nat, reconnectAllowed (some 0) r = true) ∧
    (∀ k : Nat, (lossesFrom c k).connects = c.connects + k) := by
  refine ⟨fun r => rfl, fun k => (lossesFrom_unlimited k c hm).1⟩

/-- C9 witness: with `maxRetries = 0`, five losses yield five attempts. -/
theorem c9_zero_cap_means_unlimited_witness :
    zeroCapClient.maxRetries = some 0 ∧
    ((∀ r : Nat, reconnectAllowed (some 0) r = true) ∧
     (∀ k : Nat, (lossesFrom zeroCapClient k).connects = zeroCapClient.connects + k)) :=
  ⟨by decide, c9_zero_cap_means_unlimited zeroCapClient (by decide)⟩

/-- C10: a constructed client stores the default 5000 when
`reconnectInterval` is 0 (falsy) or absent, and stores any strictly
positive configured value unchanged. -/
theorem c10_interval_zero_gets_default (url : String) (opts : Options)
    (v : Nat) (hv : 0 < v) :
    (mkClient url { opts with reconnectInterval := some 0 }).reconnectInterval = 5000 ∧
    (mkClient url { opts with reconnectInterval := some v }).reconnectInterval = v ∧
    (mkClient url { opts with reconnectInterval := none }).reconnectInterval = 5000 := by
  refine ⟨?_, ?_, ?_⟩
  · simp [mkClient, connect, jsOr]
  · simp [mkClient, connect, jsOr, Nat.pos_iff_ne_zero.mp hv]
  · simp [mkClient, connect, jsOr]

/-- C10 witness: interval 0 is replaced by 5000; interval 250 is kept. -/
theorem c10_interval_zero_gets_default_witness :
    0 < 250 ∧
    ((mkClient "ws://a" { demoOpts with reconnectInterval := some 0 }).reconnectInterval = 5000 ∧
     (mkClient "ws://a" { demoOpts with reconnectInterval := some 250 }).reconnectInterval = 250 ∧
     (mkClient "ws://a" { demoOpts with reconnectInterval := none }).reconnectInterval = 5000) :=
  ⟨by decide, c10_interval_zero_gets_default "ws://a" demoOpts 250 (by decide)⟩

/-- C5: the `open` handler resets the retry counter to exactly 0 (and then
emits `open`); a scheduled reconnect attempt increments it by exactly 1
(at the cap it is left unchanged); and no other operation — `send`, a
resend pass, `terminate`, `close`, the `message` or `error` handlers, or
`connect` itself — changes it. -/
theorem c5_retry_counter_discipline (c : Client) (errs : Payload → Bool)
    (p d : Payload) (q e : Bool) :
    (onOpen c errs).retryCount = 0 ∧
    (onOpen c errs).emitted = c.emitted ++ [Ev.opened] ∧
    (reconnect c).retryCount =
      (if reconnectAllowed c.maxRetries c.retryCount then c.retryCount + 1
       else c.retryCount) ∧
    (onClose c).retryCount =
      (if reconnectAllowed c.maxRetries c.retryCount then c.retryCount + 1
       else c.retryCount) ∧
    (send c p q e).retryCount = c.retryCount ∧
    (resendQueuedMessages c errs).retryCount = c.retryCount ∧
    (terminate c).retryCount = c.retryCount ∧
    (closeConn c).retryCount = c.retryCount ∧
    (onMessage c d).retryCount = c.retryCount ∧
    (onError c).retryCount = c.retryCount ∧
    (connect c).retryCount = c.retryCount := by
  refine ⟨?_, ?_, ?_, ?_, (send_preserved c p q e).2.1, (resend_spec errs c).2.2.2.2.1,
    rfl, rfl, rfl, rfl, rfl⟩
  · by_cases hres : c.resendOnReconnect = true
    · rw [onOpen_resend c errs hres]
      exact (resend_spec errs _).2.2.2.2.1
    · rw [onOpen_noresend c errs (Bool.not_eq_true _ ▸ hres)]
  · by_cases hres : c.resendOnReconnect = true
    · rw [onOpen_resend c errs hres]
      exact (resend_spec errs _).2.2.2.2.2.2.2.2.2
    · rw [onOpen_noresend c errs (Bool.not_eq_true _ ▸ hres)]
  · rw [reconnect_spec]
    split
    · rfl
    · rfl
  · unfold onClose
    rw [reconnect_spec]
    split
    · rfl
    · rfl

/-- C6: a replay pass iterates a snapshot of the sent log taken when the
pass starts: with the log at `L`, exactly the entries of `L` are handed
off (in order), even though the pass's own successful sends append to the
log again — afterwards the log reads `L` followed by the re-logged
successes, none of which were handed off a second time. -/
theorem c6_replay_iterates_snapshot (c : Client) (errs : Payload → Bool)
    (L : List Payload) (hw : c.wsOpen = true) (hq : c.messageQueue = [])
    (hs : c.sentMessages = L) (hrep : c.repeatAllMessages = true) :
    (resendQueuedMessages c errs).transported = c.transported ++ L ∧
    (resendQueuedMessages c errs).sentMessages =
      L ++ L.filter (fun m => ! errs m) := by
  obtain ⟨r1, r2, r3, -⟩ := resend_spec errs c
  constructor
  · rw [r2]
    simp [hw, hq, hs, hrep]
  · rw [r3]
    simp [hw, hq, hs, hrep]

/-- C6 witness: with the log at `["x", "y"]` and every resend succeeding,
the pass hands off exactly `["x", "y"]` while the log ends at
`["x", "y", "x", "y"]`. -/
theorem c6_replay_iterates_snapshot_witness :
    snapClient.wsOpen = true ∧ snapClient.messageQueue = [] ∧
    snapClient.sentMessages = ["x", "y"] ∧ snapClient.repeatAllMessages = true ∧
    ((resendQueuedMessages snapClient noErr).transported =
      snapClient.transported ++ ["x", "y"] ∧
     (resendQueuedMessages snapClient noErr).sentMessages =
      ["x", "y"] ++ List.filter (fun m => ! noErr m) ["x", "y"]) :=
  ⟨by decide, by decide, by decide, by decide,
   c6_replay_iterates_snapshot snapClient noErr ["x", "y"]
     (by decide) (by decide) (by decide) (by decide)⟩

/-- C2: with `repeatAllMessages` on, after `M` successful sends (payload
list `ps`), a disconnect and a successful reconnect, the `open` handler —
after first flushing the (empty) outbound queue — replays exactly those
`M` payloads in their original send order: the transport receives `ps`
once from the original sends and once more from the replay, the queue
stays empty, and the log ends at `ps ++ ps`. -/
theorem c2_replay_after_reconnect (c : Client) (ps : List Payload)
    (hw : c.wsOpen = true) (hq : c.messageQueue = []) (hs : c.sentMessages = [])
    (hrep : c.repeatAllMessages = true) (hres : c.resendOnReconnect = true) :
    (onOpen (onClose (sendAll c ps)) noErr).transported =
      c.transported ++ ps ++ ps ∧
    (onOpen (onClose (sendAll c ps)) noErr).sentMessages = ps ++ ps ∧
    (onOpen (onClose (sendAll c ps)) noErr).messageQueue = [] := by
  obtain ⟨s1, s2, s3, s4, s5, s6, s7, s8, s9, s10⟩ := sendAll_spec ps c hw
  obtain ⟨o1, o2, o3, o4, o5, o6, o7⟩ := onClose_fields (sendAll c ps)
  have hDq : (onClose (sendAll c ps)).messageQueue = [] := by rw [o2, s3, hq]
  have hDs : (onClose (sendAll c ps)).sentMessages = ps := by
    rw [o3, s2, hs, hrep]
    simp
  have hDt : (onClose (sendAll c ps)).transported = c.transported ++ ps := by
    rw [o4, s1]
  have hDrep : (onClose (sendAll c ps)).repeatAllMessages = true := by
    rw [o5, s6, hrep]
  have hDres : (onClose (sendAll c ps)).resendOnReconnect = true := by
    rw [o6, s7, hres]
  rw [onOpen_resend _ _ hDres]
  obtain ⟨t1, t2, t3⟩ :=
    resend_open_empty_queue
      { onClose (sendAll c ps) with
          wsOpen := true
          retryCount := 0
          emitted := (onClose (sendAll c ps)).emitted ++ [Ev.opened] }
      noErr ps rfl hDq hDs hDrep
  refine ⟨?_, ?_, t3⟩
  · exact t1.trans (congrArg (fun l => l ++ ps) hDt)
  · refine t2.trans ?_
    simp [noErr]

/-- C2 witness: two successful sends of `"a"`, `"b"`, a disconnect and a
reconnect: the replay hands off exactly `["a", "b"]` again, in order. -/
theorem c2_replay_after_reconnect_witness :
    openClient.wsOpen = true ∧ openClient.messageQueue = [] ∧
    openClient.sentMessages = [] ∧ openClient.repeatAllMessages = true ∧
    openClient.resendOnReconnect = true ∧
    ((onOpen (onClose (sendAll openClient ["a", "b"])) noErr).transported =
      openClient.transported ++ ["a", "b"] ++ ["a", "b"] ∧
     (onOpen (onClose (sendAll openClient ["a", "b"])) noErr).sentMessages =
      ["a", "b"] ++ ["a", "b"] ∧
     (onOpen (onClose (sendAll openClient ["a", "b"])) noErr).messageQueue = []) :=
  ⟨by decide, by decide, by decide, by decide, by decide,
   c2_replay_after_reconnect openClient ["a", "b"]
     (by decide) (by decide) (by decide) (by decide) (by decide)⟩

/-- C7: `terminate` empties both the outbound queue and the sent log, so a
resend pass after termination (with no intervening enqueue or successful
send) hands off nothing and leaves the log empty — whether run directly or
through a subsequent reconnect's `open` handler. -/
theorem c7_terminate_clears_queue_and_log (c : Client) (errs : Payload → Bool) :
    (terminate c).messageQueue = [] ∧
    (terminate c).sentMessages = [] ∧
    (resendQueuedMessages (terminate c) errs).transported = c.transported ∧
    (resendQueuedMessages (terminate c) errs).sentMessages = [] ∧
    (onOpen (onClose (terminate c)) errs).transported = c.transported ∧
    (onOpen (onClose (terminate c)) errs).sentMessages = [] ∧
    (onOpen (onClose (terminate c)) errs).messageQueue = [] := by
  obtain ⟨o1, o2, o3, o4, o5, o6, o7⟩ := onClose_fields (terminate c)
  obtain ⟨u1, u2, u3⟩ := resend_empty_state (terminate c) errs rfl rfl
  have honOpen : (onOpen (onClose (terminate c)) errs).transported = c.transported ∧
      (onOpen (onClose (terminate c)) errs).sentMessages = [] ∧
      (onOpen (onClose (terminate c)) errs).messageQueue = [] := by
    by_cases hres : (onClose (terminate c)).resendOnReconnect = true
    · rw [onOpen_resend _ _ hres]
      obtain ⟨t1, t2, t3⟩ :=
        resend_empty_state
          { onClose (terminate c) with
              wsOpen := true
              retryCount := 0
              emitted := (onClose (terminate c)).emitted ++ [Ev.opened] }
          errs (o2.trans rfl) (o3.trans rfl)
      exact ⟨t1.trans (o4.trans rfl), t2, t3⟩
    · rw [onOpen_noresend _ _ (Bool.not_eq_true _ ▸ hres)]
      exact ⟨o4.trans rfl, o3.trans rfl, o2.trans rfl⟩
  exact ⟨rfl, rfl, u1, u2, honOpen.1, honOpen.2.1, honOpen.2.2⟩

end WsReconnect
